import Mathlib

/-!
Verification of the Reddit-Filter backend core: a shallow embedding of the
rate-limited Reddit API client (`redditService.ts`), the ETL orchestration
(`etlService.ts`), and the storage models (`subredditModel.ts`/`postModel`,
`authorModel.ts`), together with theorems settling the specification claims.

Modelling conventions:
* JS `number` timestamps/scores become `Int` (milliseconds for instants);
  counters become `Nat`.
* The relational tables become lists of row structures; SQL upserts become
  pure functions from a database value to a database value.
* `await`-based waits become explicit event lists plus an explicit clock
  threaded through the rate-limiting functions: each sleep advances the
  clock by the (clamped-at-zero, as `setTimeout` does) wait duration.
* Fallible externals (the network fetch, the SQL layer inside `try` blocks)
  become `Except String` values supplied as parameters.
-/

namespace RedditFilter

/-- Normalized Reddit post, mirroring `RedditPost` in `types.ts`. -/
structure RedditPost where
  id : String
  title : String
  selftext : String
  author : String
  subreddit : String
  score : Int
  ups : Int
  downs : Int
  num_comments : Int
  created_utc : Int
  url : String
  permalink : String
  deriving DecidableEq, Repr

/-- A row of the `posts` table (the columns the core reads or writes;
`relevance_score` is a SQL FLOAT whose stored values are the integer sums
computed by `updateRelevanceScore`, so it is modelled as `Int`). -/
structure PostRow where
  id : Nat
  reddit_id : String
  title : String
  content : Option String
  subreddit_id : Nat
  author_id : Option Nat
  score : Int
  upvotes : Int
  downvotes : Int
  comment_count : Int
  created_utc : Int
  url : String
  processed : Bool
  relevance_score : Int
  deriving DecidableEq, Repr

/-- The record handed to `PostModel.create` (the `postData` object built in
`ETLService.storePost`, minus the generated `id`; `processed` is not among
the inserted columns, the DDL default applies). -/
structure NewPost where
  reddit_id : String
  title : String
  content : Option String
  subreddit_id : Nat
  author_id : Option Nat
  score : Int
  upvotes : Int
  downvotes : Int
  comment_count : Int
  created_utc : Int
  url : String
  deriving DecidableEq, Repr

/-- The fresh row inserted by `PostModel.create` for a new `reddit_id`
(the DDL defaults `processed = false`, `relevance_score = 0` apply since
those columns are not in the INSERT list). -/
def PostModel.insertRow (p : NewPost) (freshId : Nat) : PostRow :=
  { id := freshId, reddit_id := p.reddit_id, title := p.title,
    content := p.content, subreddit_id := p.subreddit_id,
    author_id := p.author_id, score := p.score, upvotes := p.upvotes,
    downvotes := p.downvotes, comment_count := p.comment_count,
    created_utc := p.created_utc, url := p.url, processed := false,
    relevance_score := 0 }

/-- The `ON CONFLICT ... DO UPDATE SET` clause of `PostModel.create`:
only the four mutable counters are overwritten from the excluded row. -/
def PostModel.updateCounters (p : NewPost) (row : PostRow) : PostRow :=
  { row with score := p.score, upvotes := p.upvotes,
             downvotes := p.downvotes, comment_count := p.comment_count }

/-- `PostModel.create`: `INSERT ... ON CONFLICT (reddit_id) DO UPDATE SET
score, upvotes, downvotes, comment_count = EXCLUDED...` — if a row with the
same `reddit_id` exists, only the four mutable counters of that row are
updated in place; otherwise a fresh row is inserted. Returns the affected
row id. -/
def PostModel.create (p : NewPost) (db : List PostRow) (freshId : Nat) :
    Nat × List PostRow :=
  match db.find? (fun r => r.reddit_id == p.reddit_id) with
  | some r =>
    (r.id, db.map (fun row =>
      if row.reddit_id == p.reddit_id then PostModel.updateCounters p row
      else row))
  | none => (freshId, db ++ [PostModel.insertRow p freshId])

/-- A row of the `authors` table. -/
structure AuthorRow where
  id : Nat
  username : String
  link_karma : Int
  comment_karma : Int
  deriving DecidableEq, Repr

/-- `AuthorModel.findOrCreate`: looks the author up by `username`; when the
author exists, `UPDATE authors SET link_karma = $1, comment_karma = $2`
overwrites both karma columns with the supplied values; otherwise a fresh
row is inserted with those values. Returns the author id. -/
def AuthorModel.findOrCreate (username : String) (linkKarma commentKarma : Int)
    (db : List AuthorRow) (freshId : Nat) : Nat × List AuthorRow :=
  match db.find? (fun a => a.username == username) with
  | some a =>
    (a.id, db.map (fun r =>
      if r.username == username then
        { r with link_karma := linkKarma, comment_karma := commentKarma }
      else r))
  | none =>
    let row : AuthorRow :=
      { id := freshId, username := username,
        link_karma := linkKarma, comment_karma := commentKarma }
    (freshId, db ++ [row])

/-- `ETLService.storePost`: upserts the author with karma `(0, 0)` (the
source always passes zeroes), then upserts the post via `PostModel.create`
(`content` is `selftext || null`, `created_utc` is seconds × 1000). -/
def ETLService.storePost (post : RedditPost) (subredditId : Nat)
    (adb : List AuthorRow) (pdb : List PostRow) (freshAuthorId freshPostId : Nat) :
    List AuthorRow × List PostRow :=
  let ar := AuthorModel.findOrCreate post.author 0 0 adb freshAuthorId
  let pd : NewPost :=
    { reddit_id := post.id, title := post.title,
      content := if post.selftext == "" then none else some post.selftext,
      subreddit_id := subredditId, author_id := some ar.1,
      score := post.score, upvotes := post.ups, downvotes := post.downs,
      comment_count := post.num_comments,
      created_utc := post.created_utc * 1000, url := post.url }
  (ar.2, (PostModel.create pd pdb freshPostId).2)

/-- The run result returned by `ETLService.syncSubreddit`. -/
structure SyncResult where
  success : Bool
  postsCount : Nat
  errors : List String
  deriving DecidableEq, Repr

/-- The body of the per-post loop of `syncSubreddit`: a successful store
increments the stored-posts counter, a failed one appends
`Failed to store post {id}: {message}` to the error list and moves on. -/
def ETLService.storeStep (store : RedditPost → Except String Unit)
    (acc : Nat × List String) (post : RedditPost) : Nat × List String :=
  match store post with
  | .ok _ => (acc.1 + 1, acc.2)
  | .error m =>
    (acc.1, acc.2 ++ ["Failed to store post " ++ post.id ++ ": " ++ m])

/-- `ETLService.syncSubreddit`, with its fallible externals made explicit:
`fetchResult` is the outcome of `redditService.fetchPosts`,
`findOrCreateResult` the outcome of `SubredditModel.findOrCreate` (both run
inside the same `try` block, whose `catch` returns `success = false` with
the error message), and `store` the per-post outcome of `storePost` (whose
failures are caught inside the loop and recorded). -/
def ETLService.syncSubreddit (fetchResult : Except String (List RedditPost))
    (findOrCreateResult : Except String Nat)
    (store : RedditPost → Except String Unit) : SyncResult :=
  match fetchResult with
  | .error e => { success := false, postsCount := 0, errors := [e] }
  | .ok posts =>
    if posts.isEmpty then
      { success := true, postsCount := 0, errors := [] }
    else
      match findOrCreateResult with
      | .error e => { success := false, postsCount := 0, errors := [e] }
      | .ok _ =>
        let final := posts.foldl (ETLService.storeStep store)
          ((0 : Nat), ([] : List String))
        { success := true, postsCount := final.1, errors := final.2 }

/-- Rate-limiting configuration (`RATE_LIMIT`, `MIN_REQUEST_INTERVAL`). -/
structure RateConfig where
  RATE_LIMIT : Nat
  MIN_REQUEST_INTERVAL : Int
  deriving DecidableEq, Repr

/-- The mutable rate-limit fields of `RedditService`. -/
structure RateState where
  requestCount : Nat
  lastResetTime : Int
  lastRequestTime : Int
  redditRateLimitRemaining : Int
  redditRateLimitReset : Int
  deriving DecidableEq, Repr

/-- One observable sleep performed by `checkRateLimit`, tagged with which
of the three wait sites issued it and the computed wait duration. -/
inductive WaitEvent where
  | quotaWait (ms : Int)
  | localWait (ms : Int)
  | intervalWait (ms : Int)
  deriving DecidableEq, Repr

/-- `RedditService.waitForRequestInterval` at clock `now`: if less than
`MIN_REQUEST_INTERVAL` has elapsed since `lastRequestTime`, sleeps the
difference; then records the current instant as `lastRequestTime`.
Returns (events, clock after waits, new state). -/
def RedditService.waitForRequestInterval (cfg : RateConfig) (s : RateState)
    (now : Int) : List WaitEvent × Int × RateState :=
  let timeSinceLastRequest := now - s.lastRequestTime
  if timeSinceLastRequest < cfg.MIN_REQUEST_INTERVAL then
    let waitTime := cfg.MIN_REQUEST_INTERVAL - timeSinceLastRequest
    ([WaitEvent.intervalWait waitTime], now + waitTime,
      { s with lastRequestTime := now + waitTime })
  else
    ([], now, { s with lastRequestTime := now })

/-- The window reset at the top of `checkRateLimit`: when at least 60 s
have elapsed since the window start, the local counter is zeroed and the
window restarted at `now`. -/
def RedditService.resetWindow (s : RateState) (now : Int) : RateState :=
  if now - s.lastResetTime ≥ 60000 then
    { s with requestCount := 0, lastResetTime := now }
  else s

/-- The remote-quota wait of `checkRateLimit`: when the remembered remote
quota is at most 1 and its reset instant lies in the future, sleep until
that instant and assume 60 remaining. -/
def RedditService.quotaStep (s : RateState) (now : Int) :
    List WaitEvent × Int × RateState :=
  if s.redditRateLimitRemaining ≤ 1 ∧ s.redditRateLimitReset > now then
    let waitTime := s.redditRateLimitReset - now
    ([WaitEvent.quotaWait waitTime], now + waitTime,
      { s with redditRateLimitRemaining := 60 })
  else ([], now, s)

/-- The local-window wait of `checkRateLimit`: when the local counter has
reached the limit, sleep the remainder of the window (computed from the
entry-time `timeSinceReset`; `setTimeout` clamps a negative delay to 0),
zero the counter and restart the window. -/
def RedditService.localStep (cfg : RateConfig) (timeSinceReset : Int)
    (t : Int) (s : RateState) : List WaitEvent × Int × RateState :=
  if s.requestCount ≥ cfg.RATE_LIMIT then
    let waitTime := 60000 - timeSinceReset
    let t2 := t + max waitTime 0
    ([WaitEvent.localWait waitTime], t2,
      { s with requestCount := 0, lastResetTime := t2 })
  else ([], t, s)

/-- `RedditService.checkRateLimit` entered at clock `now`: resets the local
window if 60 s have elapsed; then, in the source's order: the remote-quota
wait, the local-window wait, the minimum-interval wait, and finally the
counter increment. Returns (events, clock, new state). -/
def RedditService.checkRateLimit (cfg : RateConfig) (s0 : RateState)
    (now : Int) : List WaitEvent × Int × RateState :=
  let timeSinceReset := now - s0.lastResetTime
  let s1 := RedditService.resetWindow s0 now
  let step2 := RedditService.quotaStep s1 now
  let step3 := RedditService.localStep cfg timeSinceReset step2.2.1 step2.2.2
  let step4 := RedditService.waitForRequestInterval cfg step3.2.2 step3.2.1
  (step2.1 ++ step3.1 ++ step4.1, step4.2.1,
    { step4.2.2 with requestCount := step4.2.2.requestCount + 1 })

/-- The instants at which successive requests are issued: each call to
`checkRateLimit` is entered at the corresponding clock value of `ts`, and
the request goes out at the `lastRequestTime` the call records. -/
def RedditService.issueTimes (cfg : RateConfig) :
    RateState → List Int → List Int
  | _, [] => []
  | s, t :: ts =>
    let r := RedditService.checkRateLimit cfg s t
    r.2.2.lastRequestTime :: RedditService.issueTimes cfg r.2.2 ts

/-- A request error: either an HTTP response with a status code
(`error.response?.status`) or an error without a response. -/
inductive ReqError where
  | httpStatus (code : Int)
  | other
  deriving DecidableEq, Repr

/-- The outcome of one attempt of the wrapped operation. -/
inductive AttemptOutcome (α : Type) where
  | success (v : α)
  | failure (e : ReqError)
  deriving DecidableEq, Repr

/-- The loop body of `RedditService.makeRequestWithRetry` starting at a
given attempt number: a success returns; a 429 with attempts left sleeps
`5000 · 2^attempt` ms and retries; any other error — or a 429 with no
attempts left — is thrown. Returns the result and the list of sleeps. -/
def RedditService.retryLoop {α : Type} (requestFn : Nat → AttemptOutcome α)
    (maxRetries : Nat) (attempt : Nat) : Except ReqError α × List Int :=
  match requestFn attempt with
  | .success v => (Except.ok v, [])
  | .failure e =>
    if h : e = ReqError.httpStatus 429 ∧ attempt < maxRetries then
      let waitTime := 5000 * 2 ^ attempt
      let rest := RedditService.retryLoop requestFn maxRetries (attempt + 1)
      (rest.1, waitTime :: rest.2)
    else
      (Except.error e, [])
termination_by maxRetries + 1 - attempt
decreasing_by
  omega

/-- `RedditService.makeRequestWithRetry` (the loop from attempt 0; the
source default is `maxRetries = 3`). -/
def RedditService.makeRequestWithRetry {α : Type}
    (requestFn : Nat → AttemptOutcome α) (maxRetries : Nat) :
    Except ReqError α × List Int :=
  RedditService.retryLoop requestFn maxRetries 0

/-- Raw Reddit post data as used by `normalizePostData` (`selftext` may be
absent — the source applies `|| ''`). -/
structure RawPost where
  id : String
  title : String
  selftext : Option String
  author : String
  subreddit : String
  score : Int
  ups : Int
  downs : Int
  num_comments : Int
  created_utc : Int
  url : String
  permalink : String
  deriving DecidableEq, Repr

/-- One entry of `response.data.data.children`: a `kind` tag plus data. -/
structure RawChild where
  kind : String
  data : RawPost
  deriving DecidableEq, Repr

/-- `RedditService.normalizePostData`. -/
def RedditService.normalizePostData (raw : RawPost) : RedditPost :=
  { id := raw.id, title := raw.title, selftext := raw.selftext.getD "",
    author := raw.author, subreddit := raw.subreddit, score := raw.score,
    ups := raw.ups, downs := raw.downs, num_comments := raw.num_comments,
    created_utc := raw.created_utc, url := raw.url,
    permalink := raw.permalink }

/-- The observable side effects of a client call. -/
inductive Effect where
  | cacheGet (key : String)
  | throttle
  | authenticate
  | httpRequest
  | cacheSet (key : String) (ttlSeconds : Nat)
  deriving DecidableEq, Repr

/-- The cache key built by `fetchPosts`:
`reddit:posts:${subreddit}:${sort}:${timeFilter}:${limit}`. -/
def RedditService.fetchPostsCacheKey (subreddit sort timeFilter : String)
    (limit : Nat) : String :=
  "reddit:posts:" ++ subreddit ++ ":" ++ sort ++ ":" ++ timeFilter ++ ":"
    ++ toString limit

/-- `RedditService.fetchPosts` with the cache and the network response made
explicit: on a cache hit the cached posts are returned with no further
effect and no state change; on a miss it throttles (`checkRateLimit`),
authenticates, performs the HTTP request, filters the children to `t3`
entries, normalizes them, and caches the result for 600 s. Returns
(posts, rate state, cache, effects). -/
def RedditService.fetchPosts (cache : String → Option (List RedditPost))
    (cfg : RateConfig) (s : RateState) (now : Int)
    (subreddit timeFilter sort : String) (limit : Nat)
    (response : List RawChild) :
    List RedditPost × RateState × (String → Option (List RedditPost)) × List Effect :=
  let cacheKey := RedditService.fetchPostsCacheKey subreddit sort timeFilter limit
  match cache cacheKey with
  | some cached => (cached, s, cache, [Effect.cacheGet cacheKey])
  | none =>
    let rl := RedditService.checkRateLimit cfg s now
    let posts := (response.filter (fun c => c.kind == "t3")).map
      (fun c => RedditService.normalizePostData c.data)
    (posts, rl.2.2,
      fun k => if k == cacheKey then some posts else cache k,
      [Effect.cacheGet cacheKey, Effect.throttle, Effect.authenticate,
        Effect.httpRequest, Effect.cacheSet cacheKey 600])

/-- `RedditService.searchPosts`: always throttles, authenticates and
performs the HTTP request; the source contains no cache access at all.
Returns (posts, rate state, effects). -/
def RedditService.searchPosts (cfg : RateConfig) (s : RateState) (now : Int)
    (_q : String) (_subreddit : Option String) (_limit : Nat)
    (response : List RawChild) : List RedditPost × RateState × List Effect :=
  let rl := RedditService.checkRateLimit cfg s now
  let posts := (response.filter (fun c => c.kind == "t3")).map
    (fun c => RedditService.normalizePostData c.data)
  (posts, rl.2.2, [Effect.throttle, Effect.authenticate, Effect.httpRequest])

/-- JS `toLowerCase`, applied characterwise. -/
def toLowerStr (s : String) : String := String.mk (s.data.map Char.toLower)

/-- Whether `pat` occurs at the start of `s`. -/
def isPrefixList : List Char → List Char → Bool
  | [], _ => true
  | _ :: _, [] => false
  | p :: ps, c :: cs => p == c && isPrefixList ps cs

/-- Counts the matches of the literal pattern `pat` in `s` the way a JS
global-regex `match` does: scanning left to right, each match consumes the
matched characters (non-overlapping). `pat` is assumed nonempty; the
structural `fuel` argument bounds the scan and is instantiated with the
length of `s`, which every step strictly decreases, so the fuel never runs
out. -/
def countOccAux (pat : List Char) : Nat → List Char → Nat
  | 0, _ => 0
  | _, [] => 0
  | fuel + 1, c :: cs =>
    if isPrefixList pat (c :: cs) then
      1 + countOccAux pat fuel (cs.drop (pat.length - 1))
    else
      countOccAux pat fuel cs

/-- `(text.match(new RegExp(pat, 'g')) || []).length` for a literal
pattern: a JS global match of the empty pattern yields `length + 1` empty
matches; otherwise the non-overlapping count. -/
def countOccurrences (text pat : String) : Nat :=
  if pat.isEmpty then text.length + 1
  else countOccAux pat.data text.data.length text.data

/-- Case-insensitive substring test, as SQL `ILIKE '%pat%'`. -/
def containsCI (text pat : String) : Bool :=
  0 < countOccurrences (toLowerStr text) (toLowerStr pat)

/-- The relevance sum computed by `PostModel.updateRelevanceScore`: for
each keyword, the case-insensitive match counts in the title and in the
content (`content || ''`), accumulated as
`titleMatches * 10 + contentMatches * 5`. -/
def relevanceScore (title : String) (content : Option String)
    (keywords : List String) : Nat :=
  keywords.foldl (fun acc kw =>
    let k := toLowerStr kw
    let titleMatches := countOccurrences (toLowerStr title) k
    let contentMatches := countOccurrences (toLowerStr (content.getD "")) k
    acc + (titleMatches * 10 + contentMatches * 5)) 0

/-- `UPDATE posts SET relevance_score = $1 WHERE id = $2` applied to one
row. -/
def withRelevance (r : PostRow) (v : Int) : PostRow :=
  { r with relevance_score := v }

/-- `PostModel.updateRelevanceScore`: reads the post by id (returning
unchanged when absent), recomputes the relevance sum from its title and
content, and overwrites `relevance_score` with it. -/
def PostModel.updateRelevanceScore (postId : Nat) (keywords : List String)
    (db : List PostRow) : List PostRow :=
  match db.find? (fun r => r.id == postId) with
  | none => db
  | some _ =>
    db.map (fun r =>
      if r.id == postId then
        withRelevance r (Int.ofNat (relevanceScore r.title r.content keywords))
      else r)

/-- One row of the joined view `posts LEFT JOIN authors LEFT JOIN
subreddits` that `PostModel.search` queries. -/
structure SearchRow where
  post : PostRow
  author : Option AuthorRow
  subreddit_name : Option String
  deriving DecidableEq, Repr

/-- The optional filter criteria of `PostModel.search` (`SearchQuery` in
`types.ts`; the two bounds of `dateRange` are modelled as two options
since the source checks them independently). -/
structure SearchCriteria where
  keywords : List String
  requiredKeywords : Option (List String)
  subreddits : Option (List String)
  minUpvotes : Option Int
  minKarma : Option Int
  dateRangeStart : Option Int
  dateRangeEnd : Option Int
  limit : Option Nat
  offset : Option Nat

/-- The conjunction of the WHERE clauses `PostModel.search` appends, one
per present criterion. The full-text keyword clause delegates to the
store's text-search capability, abstracted as the predicate `ftsMatch` on
(keywords, title, content); a SQL NULL comparison filters the row out, so
missing joined columns make the corresponding clause false. -/
def matchesCriteria (ftsMatch : List String → String → Option String → Bool)
    (q : SearchCriteria) (r : SearchRow) : Bool :=
  (q.keywords.isEmpty || ftsMatch q.keywords r.post.title r.post.content) &&
  ((q.requiredKeywords.getD []).all (fun kw =>
    containsCI r.post.title kw ||
      (match r.post.content with
       | some c => containsCI c kw
       | none => false))) &&
  (match q.subreddits with
   | none => true
   | some subs =>
     if subs.isEmpty then true
     else match r.subreddit_name with
       | some n => subs.contains n
       | none => false) &&
  (match q.minUpvotes with
   | none => true
   | some t => t ≤ r.post.score) &&
  (match q.minKarma with
   | none => true
   | some t =>
     match r.author with
     | some a => t ≤ a.link_karma + a.comment_karma
     | none => false) &&
  (match q.dateRangeStart with
   | none => true
   | some t => t ≤ r.post.created_utc) &&
  (match q.dateRangeEnd with
   | none => true
   | some t => r.post.created_utc ≤ t)

/-- `ORDER BY p.relevance_score DESC, p.score DESC` as a two-key relation:
`a` comes no later than `b` when `a` has strictly greater relevance score,
or equal relevance score and no smaller raw score. -/
def searchRel (a b : SearchRow) : Prop :=
  b.post.relevance_score < a.post.relevance_score ∨
    (a.post.relevance_score = b.post.relevance_score ∧
      b.post.score ≤ a.post.score)

instance : DecidableRel searchRel := fun a b => by
  unfold searchRel
  infer_instance

instance : IsTotal SearchRow searchRel := by
  constructor
  intro a b
  unfold searchRel
  omega

instance : IsTrans SearchRow searchRel := by
  constructor
  intro a b c hab hbc
  unfold searchRel at *
  omega

/-- `PostModel.search`: filters the joined rows by the composed criteria,
orders by relevance score descending then raw score descending (a stable
sort by the two-key relation models the SQL `ORDER BY`), and paginates
with `LIMIT` (default 50) and `OFFSET` (default 0). -/
def PostModel.search (ftsMatch : List String → String → Option String → Bool)
    (q : SearchCriteria) (db : List SearchRow) : List SearchRow :=
  let filtered := db.filter (matchesCriteria ftsMatch q)
  let sorted := filtered.insertionSort searchRel
  (sorted.drop (q.offset.getD 0)).take (q.limit.getD 50)

/-- The comment fields pushed by `extractComments`. -/
structure CommentData where
  id : String
  body : String
  author : String
  score : Int
  created_utc : Int
  link_id : String
  deriving DecidableEq, Repr

/-- A node of the comment reply tree: a `kind` tag, the comment data, and
the nested replies (`child.data.replies.data.children`, empty when the
source's `replies` field is absent). -/
inductive RedditNode where
  | mk (kind : String) (data : CommentData) (replies : List RedditNode)

/-- The `kind` tag of a node. -/
def RedditNode.kind : RedditNode → String
  | .mk k _ _ => k

/-- `RedditService.extractComments`: walks the children in order; a node
of kind `t1` contributes its comment followed by the recursive flattening
of its replies; any other node is skipped without visiting its replies. -/
def RedditService.extractComments : List RedditNode → List CommentData
  | [] => []
  | RedditNode.mk kind c replies :: rest =>
    (if kind == "t1" then c :: RedditService.extractComments replies else [])
      ++ RedditService.extractComments rest

/-! ### Sample data used by witnesses and counterexamples -/

/-- A concrete normalized post. -/
def samplePost : RedditPost :=
  { id := "abc1", title := "Hello", selftext := "body", author := "alice",
    subreddit := "lean", score := 10, ups := 12, downs := 2,
    num_comments := 3, created_utc := 1700000000, url := "http://x",
    permalink := "/r/lean/abc1" }

/-- A second concrete normalized post. -/
def samplePost2 : RedditPost :=
  { id := "def2", title := "World", selftext := "", author := "bob",
    subreddit := "lean", score := 4, ups := 5, downs := 1,
    num_comments := 0, created_utc := 1700000100, url := "http://y",
    permalink := "/r/lean/def2" }

/-- A concrete input to `PostModel.create`. -/
def sampleNewPost : NewPost :=
  { reddit_id := "abc1", title := "Hello", content := some "body",
    subreddit_id := 1, author_id := some 2, score := 10, upvotes := 12,
    downvotes := 2, comment_count := 3, created_utc := 1700000000000,
    url := "http://x" }

/-- The same external item observed later with different counters. -/
def sampleNewPost2 : NewPost :=
  { sampleNewPost with
    score := 42,
    upvotes := 50,
    downvotes := 8,
    comment_count := 9 }

/-- A concrete stored post row. -/
def samplePostRow : PostRow :=
  { id := 7, reddit_id := "abc1", title := "Cat likes cat",
    content := some "one cat", subreddit_id := 1, author_id := some 2,
    score := 10, upvotes := 12, downvotes := 2, comment_count := 3,
    created_utc := 1700000000000, url := "http://x", processed := false,
    relevance_score := 3 }

/-- A concrete stored author row with nonzero karma. -/
def sampleAuthor : AuthorRow :=
  { id := 4, username := "alice", link_karma := 777, comment_karma := 888 }

/-- A concrete comment. -/
def sampleComment : CommentData :=
  { id := "c1", body := "first", author := "alice", score := 3,
    created_utc := 1700000000, link_id := "t3_abc1" }

/-- A second concrete comment. -/
def sampleComment2 : CommentData :=
  { id := "c2", body := "second", author := "bob", score := 1,
    created_utc := 1700000001, link_id := "t3_abc1" }

/-! ### Helper lemmas -/

/-- `PostModel.create` on a missing `reddit_id` appends a fresh row. -/
lemma PostModel.create_insert (p : NewPost) (db : List PostRow) (fid : Nat)
    (h : db.find? (fun r => r.reddit_id == p.reddit_id) = none) :
    (PostModel.create p db fid).2 = db ++ [PostModel.insertRow p fid] := by
  unfold PostModel.create
  rw [h]

/-- `PostModel.create` on an existing `reddit_id` updates the counters of
the matching row in place. -/
lemma PostModel.create_conflict (p : NewPost) (db : List PostRow) (fid : Nat)
    (r : PostRow)
    (h : db.find? (fun x => x.reddit_id == p.reddit_id) = some r) :
    (PostModel.create p db fid).2 = db.map (fun row =>
      if row.reddit_id == p.reddit_id then PostModel.updateCounters p row
      else row) := by
  unfold PostModel.create
  rw [h]

/-- Every row of `AuthorModel.findOrCreate u lk ck db` carrying username
`u` carries exactly the supplied karma values. -/
lemma AuthorModel.findOrCreate_karma (u : String) (lk ck : Int)
    (db : List AuthorRow) (fid : Nat) :
    ∀ r ∈ (AuthorModel.findOrCreate u lk ck db fid).2,
      r.username = u → r.link_karma = lk ∧ r.comment_karma = ck := by
  intro r hr hu
  unfold AuthorModel.findOrCreate at hr
  cases hfind : db.find? (fun a => a.username == u) with
  | some a =>
    rw [hfind] at hr
    simp only at hr
    obtain ⟨x, hx, hgx⟩ := List.mem_map.mp hr
    by_cases hxu : x.username == u
    · rw [if_pos hxu] at hgx
      rw [← hgx]
      exact ⟨rfl, rfl⟩
    · rw [if_neg hxu] at hgx
      subst hgx
      exact absurd (by simpa using hu) (by simpa using hxu)
  | none =>
    rw [hfind] at hr
    simp only at hr
    rcases List.mem_append.mp hr with h | h
    · have := List.find?_eq_none.mp hfind r h
      exact absurd (by simpa using hu) (by simpa using this)
    · rw [List.mem_singleton.mp h]
      exact ⟨rfl, rfl⟩

/-! ### Claim theorems -/

/-- C1: upserting an item whose `reddit_id` already exists never creates
a second record: after ingesting the same external item twice into a
database that did not contain it, exactly one stored record carries that
`reddit_id`; it has the immutable fields of the first observation and the
counters (score, upvotes, downvotes, comment_count) of the later one, and
the database grew by exactly one row. -/
theorem create_upsert_idempotent
    (p1 p2 : NewPost) (db : List PostRow) (i1 i2 : Nat)
    (hsame : p2.reddit_id = p1.reddit_id)
    (hfresh : ∀ r ∈ db, r.reddit_id ≠ p1.reddit_id) :
    ((PostModel.create p2 (PostModel.create p1 db i1).2 i2).2.countP
        (fun r => r.reddit_id == p1.reddit_id)) = 1 ∧
    (PostModel.create p2 (PostModel.create p1 db i1).2 i2).2.length =
      db.length + 1 ∧
    ∃ r ∈ (PostModel.create p2 (PostModel.create p1 db i1).2 i2).2,
      r.reddit_id = p1.reddit_id ∧ r.title = p1.title ∧
      r.content = p1.content ∧ r.created_utc = p1.created_utc ∧
      r.score = p2.score ∧ r.upvotes = p2.upvotes ∧
      r.downvotes = p2.downvotes ∧ r.comment_count = p2.comment_count := by
  have hfind1 : db.find? (fun r => r.reddit_id == p1.reddit_id) = none := by
    rw [List.find?_eq_none]
    intro x hx
    simp [hfresh x hx]
  rw [PostModel.create_insert p1 db i1 hfind1]
  have hfind2 : (db ++ [PostModel.insertRow p1 i1]).find?
      (fun x => x.reddit_id == p2.reddit_id) =
      some (PostModel.insertRow p1 i1) := by
    have hfind1b : db.find? (fun r => r.reddit_id == p2.reddit_id) = none := by
      rw [List.find?_eq_none]
      intro x hx
      simp [hsame, hfresh x hx]
    rw [List.find?_append, hfind1b]
    simp [List.find?_cons, PostModel.insertRow, hsame]
  rw [PostModel.create_conflict p2 _ i2 _ hfind2]
  rw [List.map_append]
  have hmapid : db.map (fun row =>
      if row.reddit_id == p2.reddit_id then PostModel.updateCounters p2 row
      else row) = db := by
    have hcong : ∀ a ∈ db, (fun row =>
        if row.reddit_id == p2.reddit_id then PostModel.updateCounters p2 row
        else row) a = id a := by
      intro a ha
      simp [hsame, hfresh a ha]
    rw [List.map_congr_left hcong, List.map_id]
  rw [hmapid]
  have hsingle : [PostModel.insertRow p1 i1].map (fun row =>
      if row.reddit_id == p2.reddit_id then PostModel.updateCounters p2 row
      else row) = [PostModel.updateCounters p2 (PostModel.insertRow p1 i1)] := by
    simp [PostModel.insertRow, hsame]
  rw [hsingle]
  refine ⟨?_, ?_, ?_⟩
  · rw [List.countP_append]
    have h0 : db.countP (fun r => r.reddit_id == p1.reddit_id) = 0 := by
      rw [List.countP_eq_zero]
      intro a ha
      simp [hfresh a ha]
    rw [h0]
    simp [List.countP_cons, PostModel.updateCounters, PostModel.insertRow]
  · simp
  · refine ⟨PostModel.updateCounters p2 (PostModel.insertRow p1 i1),
      List.mem_append_right db (List.mem_singleton.mpr rfl), ?_⟩
    simp [PostModel.updateCounters, PostModel.insertRow]

/-- C1 witness: the theorem applied to a concrete pair of observations of
the same external item starting from an empty table. -/
theorem create_upsert_idempotent_witness :
    ((PostModel.create sampleNewPost2
        (PostModel.create sampleNewPost ([] : List PostRow) 1).2 2).2.countP
      (fun r => r.reddit_id == sampleNewPost.reddit_id)) = 1 ∧
    (PostModel.create sampleNewPost2
        (PostModel.create sampleNewPost ([] : List PostRow) 1).2 2).2.length =
      ([] : List PostRow).length + 1 ∧
    ∃ r ∈ (PostModel.create sampleNewPost2
        (PostModel.create sampleNewPost ([] : List PostRow) 1).2 2).2,
      r.reddit_id = sampleNewPost.reddit_id ∧ r.title = sampleNewPost.title ∧
      r.content = sampleNewPost.content ∧
      r.created_utc = sampleNewPost.created_utc ∧
      r.score = sampleNewPost2.score ∧ r.upvotes = sampleNewPost2.upvotes ∧
      r.downvotes = sampleNewPost2.downvotes ∧
      r.comment_count = sampleNewPost2.comment_count :=
  create_upsert_idempotent sampleNewPost sampleNewPost2 [] 1 2 rfl
    (by simp)

/-- C9: `AuthorModel.findOrCreate` overwrites the stored karma of a
matching contributor with the supplied values (it never accumulates), and
`ETLService.storePost` always supplies zeroes, so storing an item for an
already-known contributor resets that contributor's stored karma to 0. -/
theorem storePost_overwrites_reputation :
    (∀ (u : String) (lk ck : Int) (db : List AuthorRow) (fid : Nat),
      ∀ r ∈ (AuthorModel.findOrCreate u lk ck db fid).2,
        r.username = u → r.link_karma = lk ∧ r.comment_karma = ck) ∧
    (∀ (post : RedditPost) (sid : Nat) (adb : List AuthorRow)
        (pdb : List PostRow) (fa fp : Nat) (a : AuthorRow),
      a ∈ adb → a.username = post.author →
      ∀ r ∈ (ETLService.storePost post sid adb pdb fa fp).1,
        r.username = post.author →
        r.link_karma = 0 ∧ r.comment_karma = 0) := by
  constructor
  · exact AuthorModel.findOrCreate_karma
  · intro post sid adb pdb fa fp a _ _ r hr hu
    exact AuthorModel.findOrCreate_karma post.author 0 0 adb fa r hr hu

/-- C9 witness: storing a post by `alice` over a table where `alice`
already has karma (777, 888) leaves her stored karma at (0, 0). -/
theorem storePost_overwrites_reputation_witness :
    ({ id := 4, username := "alice", link_karma := 0, comment_karma := 0 } :
        AuthorRow).link_karma = 0 ∧
    ({ id := 4, username := "alice", link_karma := 0, comment_karma := 0 } :
        AuthorRow).comment_karma = 0 :=
  storePost_overwrites_reputation.2 samplePost 1 [sampleAuthor] [] 9 10
    sampleAuthor (List.mem_singleton.mpr rfl) rfl
    { id := 4, username := "alice", link_karma := 0, comment_karma := 0 }
    (by decide) rfl

/-- C10: the comment flattening includes a node only if its kind is `t1`
— any other node is skipped together with its entire reply subtree — and
emits comments in depth-first preorder: a `t1` node's comment precedes
the flattening of its replies, which precedes its later siblings. -/
theorem extractComments_t1_preorder :
    (∀ (kind : String) (c : CommentData) (replies rest : List RedditNode),
      kind ≠ "t1" →
      RedditService.extractComments (RedditNode.mk kind c replies :: rest) =
        RedditService.extractComments rest) ∧
    (∀ (c : CommentData) (replies rest : List RedditNode),
      RedditService.extractComments (RedditNode.mk "t1" c replies :: rest) =
        c :: (RedditService.extractComments replies ++
          RedditService.extractComments rest)) := by
  constructor
  · intro kind c replies rest h
    simp [RedditService.extractComments, h]
  · intro c replies rest
    simp [RedditService.extractComments]

/-- C10 witness: a non-`t1` node is dropped together with the `t1`
comment nested below it. -/
theorem extractComments_t1_preorder_witness :
    RedditService.extractComments
      [RedditNode.mk "more" sampleComment
        [RedditNode.mk "t1" sampleComment2 []]] = [] :=
  (extractComments_t1_preorder.1 "more" sampleComment
    [RedditNode.mk "t1" sampleComment2 []] [] (by decide)).trans
    (by simp [RedditService.extractComments])

/-- Folding an accumulating sum over a list equals the sum of the mapped
list. -/
lemma foldl_add_map_sum {α : Type} (f : α → Nat) :
    ∀ (l : List α) (n : Nat),
      l.foldl (fun acc x => acc + f x) n = n + (l.map f).sum := by
  intro l
  induction l with
  | nil => simp
  | cons x xs ih =>
    intro n
    rw [List.foldl_cons, ih]
    simp [List.map_cons]
    omega

/-- C7: `updateRelevanceScore` computes, per keyword, the
case-insensitive occurrence counts separately in title and content,
accumulates `titleMatches·10 + contentMatches·5`, and overwrites the
stored relevance score with the sum (independently of the old value); a
title containing the keyword twice and a body containing it once yields
25. -/
theorem updateRelevanceScore_spec :
    (∀ (title : String) (content : Option String) (kws : List String),
      relevanceScore title content kws =
        (kws.map (fun kw =>
          countOccurrences (toLowerStr title) (toLowerStr kw) * 10 +
          countOccurrences (toLowerStr (content.getD "")) (toLowerStr kw) * 5)).sum) ∧
    (∀ (pid : Nat) (kws : List String) (db : List PostRow) (r : PostRow),
      r ∈ db → r.id = pid →
      withRelevance r (Int.ofNat (relevanceScore r.title r.content kws)) ∈
        PostModel.updateRelevanceScore pid kws db) ∧
    relevanceScore "Cat likes cat" (some "one cat") ["cat"] = 25 := by
  refine ⟨?_, ?_, by decide⟩
  · intro title content kws
    have h := foldl_add_map_sum (fun kw =>
      countOccurrences (toLowerStr title) (toLowerStr kw) * 10 +
      countOccurrences (toLowerStr (content.getD "")) (toLowerStr kw) * 5)
      kws 0
    simpa [relevanceScore] using h
  · intro pid kws db r hr hid
    unfold PostModel.updateRelevanceScore
    cases hfind : db.find? (fun x => x.id == pid) with
    | none =>
      have := List.find?_eq_none.mp hfind r hr
      exact absurd (by simpa using hid) (by simpa using this)
    | some y =>
      simp only
      have hmem := List.mem_map_of_mem (f := fun x =>
        if x.id == pid then
          withRelevance x (Int.ofNat (relevanceScore x.title x.content kws))
        else x) hr
      simpa [hid] using hmem

/-- C7 witness: updating the relevance of a stored row whose old score is
3 with keyword `cat` (twice in the title, once in the body) stores 25. -/
theorem updateRelevanceScore_spec_witness :
    withRelevance samplePostRow
        (Int.ofNat (relevanceScore samplePostRow.title samplePostRow.content
          ["cat"])) ∈
      PostModel.updateRelevanceScore 7 ["cat"] [samplePostRow] :=
  updateRelevanceScore_spec.2.1 7 ["cat"] [samplePostRow] samplePostRow
    (List.mem_singleton.mpr rfl) rfl

/-- Folding `storeStep` over the posts counts the successful stores and
collects one message per failed store, in order. -/
lemma ETLService.foldl_storeStep (store : RedditPost → Except String Unit) :
    ∀ (posts : List RedditPost) (n : Nat) (errs : List String),
      posts.foldl (ETLService.storeStep store) (n, errs) =
        (n + posts.countP (fun p => (store p).isOk),
         errs ++ posts.filterMap (fun p =>
           match store p with
           | .ok _ => none
           | .error m =>
             some ("Failed to store post " ++ p.id ++ ": " ++ m))) := by
  intro posts
  induction posts with
  | nil =>
    intro n errs
    simp
  | cons p ps ih =>
    intro n errs
    rw [List.foldl_cons]
    cases hsp : store p with
    | ok v =>
      simp only [ETLService.storeStep, hsp]
      rw [ih]
      simp [List.countP_cons, List.filterMap_cons, hsp, Except.isOk,
        Except.toBool, Prod.ext_iff]
      omega
    | error m =>
      simp only [ETLService.storeStep, hsp]
      rw [ih]
      simp [List.countP_cons, List.filterMap_cons, hsp, Except.isOk,
        Except.toBool, Prod.ext_iff]

/-- C2 counterexample: a run whose fetch succeeded (one post fetched) can
still return `success = false` — when the subreddit find-or-create inside
the same `try` block fails — so `success = false` does not imply the fetch
failed. -/
theorem syncSubreddit_success_false_nonfetch :
    ETLService.syncSubreddit (Except.ok [samplePost])
      (Except.error "database unavailable") (fun _ => Except.ok ()) =
    { success := false, postsCount := 0,
      errors := ["database unavailable"] } := by
  rfl

/-- C2 amended: `syncSubreddit` returns `success = false` exactly on a
fetch failure or a subreddit-upsert failure; zero fetched items yield the
successful empty result; and with those two steps succeeding, every
per-item store failure is recorded as a message naming the item's
external id, later items are still processed, and the run returns
`success = true` carrying all collected messages. -/
theorem syncSubreddit_spec :
    (∀ (e : String) (foc : Except String Nat)
        (store : RedditPost → Except String Unit),
      ETLService.syncSubreddit (Except.error e) foc store =
        { success := false, postsCount := 0, errors := [e] }) ∧
    (∀ (foc : Except String Nat) (store : RedditPost → Except String Unit),
      ETLService.syncSubreddit (Except.ok []) foc store =
        { success := true, postsCount := 0, errors := [] }) ∧
    (∀ (posts : List RedditPost) (sid : Nat)
        (store : RedditPost → Except String Unit), posts ≠ [] →
      ETLService.syncSubreddit (Except.ok posts) (Except.ok sid) store =
        { success := true,
          postsCount := posts.countP (fun p => (store p).isOk),
          errors := posts.filterMap (fun p =>
            match store p with
            | .ok _ => none
            | .error m =>
              some ("Failed to store post " ++ p.id ++ ": " ++ m)) }) ∧
    (∀ (fetch : Except String (List RedditPost)) (foc : Except String Nat)
        (store : RedditPost → Except String Unit),
      (ETLService.syncSubreddit fetch foc store).success = false →
        (∃ e, fetch = Except.error e) ∨ (∃ e, foc = Except.error e)) := by
  refine ⟨?_, ?_, ?_, ?_⟩
  · intro e foc store
    rfl
  · intro foc store
    rfl
  · intro posts sid store hne
    simp only [ETLService.syncSubreddit, ETLService.foldl_storeStep]
    rw [if_neg (by simpa using hne)]
    simp
  · intro fetch foc store hfalse
    cases fetch with
    | error e => exact Or.inl ⟨e, rfl⟩
    | ok posts =>
      cases foc with
      | error e => exact Or.inr ⟨e, rfl⟩
      | ok sid =>
        exfalso
        simp only [ETLService.syncSubreddit] at hfalse
        by_cases hp : posts.isEmpty
        · rw [if_pos hp] at hfalse
          simp at hfalse
        · rw [if_neg hp] at hfalse
          simp at hfalse

/-- C2 amended witness: two posts where the first store fails — the run is
successful, one post counted, one error naming the failed post's id. -/
theorem syncSubreddit_spec_witness :
    ETLService.syncSubreddit (Except.ok [samplePost, samplePost2])
      (Except.ok 1)
      (fun p => if p.id == "abc1" then Except.error "boom"
        else Except.ok ()) =
    { success := true, postsCount := 1,
      errors := ["Failed to store post abc1: boom"] } :=
  (syncSubreddit_spec.2.2.1 [samplePost, samplePost2] 1
    (fun p => if p.id == "abc1" then Except.error "boom"
      else Except.ok ()) (by simp)).trans (by rfl)

/-- A successful attempt returns immediately with no sleep. -/
lemma RedditService.retryLoop_success {α : Type} (f : Nat → AttemptOutcome α)
    (m a : Nat) (v : α) (hf : f a = AttemptOutcome.success v) :
    RedditService.retryLoop f m a = (Except.ok v, []) := by
  rw [RedditService.retryLoop, hf]

/-- A 429 with attempts left sleeps `5000·2^attempt` and retries. -/
lemma RedditService.retryLoop_429_step {α : Type} (f : Nat → AttemptOutcome α)
    (m a : Nat) (hf : f a = AttemptOutcome.failure (ReqError.httpStatus 429))
    (ha : a < m) :
    RedditService.retryLoop f m a =
      ((RedditService.retryLoop f m (a + 1)).1,
        5000 * 2 ^ a :: (RedditService.retryLoop f m (a + 1)).2) := by
  conv_lhs => rw [RedditService.retryLoop]
  simp [hf, ha]

/-- Any error that is not a 429-with-attempts-left is thrown at once. -/
lemma RedditService.retryLoop_throw {α : Type} (f : Nat → AttemptOutcome α)
    (m a : Nat) (e : ReqError) (hf : f a = AttemptOutcome.failure e)
    (hcond : ¬(e = ReqError.httpStatus 429 ∧ a < m)) :
    RedditService.retryLoop f m a = (Except.error e, []) := by
  conv_lhs => rw [RedditService.retryLoop]
  simp only [hf]
  rw [dif_neg hcond]

/-- C5: with `maxRetries = 3`, a 429 at attempt `k < 3` sleeps
`5000·2^k` and retries, so three consecutive 429s produce the sleeps
5 s, 10 s, 20 s and a fourth 429 raises the error; a non-throttling
error — at any attempt — propagates immediately with no further sleep. -/
theorem makeRequestWithRetry_backoff {α : Type} (f : Nat → AttemptOutcome α) :
    ((∀ k, k ≤ 3 → f k = AttemptOutcome.failure (ReqError.httpStatus 429)) →
      RedditService.makeRequestWithRetry f 3 =
        (Except.error (ReqError.httpStatus 429), [5000, 10000, 20000])) ∧
    (∀ (k : Nat) (e : ReqError), k ≤ 3 →
      (∀ j, j < k → f j = AttemptOutcome.failure (ReqError.httpStatus 429)) →
      f k = AttemptOutcome.failure e → e ≠ ReqError.httpStatus 429 →
      RedditService.makeRequestWithRetry f 3 =
        (Except.error e, (List.range k).map (fun j => 5000 * 2 ^ j))) := by
  constructor
  · intro h
    unfold RedditService.makeRequestWithRetry
    rw [RedditService.retryLoop_429_step f 3 0 (h 0 (by omega)) (by omega)]
    rw [RedditService.retryLoop_429_step f 3 1 (h 1 (by omega)) (by omega)]
    rw [RedditService.retryLoop_429_step f 3 2 (h 2 (by omega)) (by omega)]
    rw [RedditService.retryLoop_throw f 3 3 _ (h 3 (by omega))
      (fun hc => by omega)]
    norm_num
  · intro k e hk h429 hf hne
    unfold RedditService.makeRequestWithRetry
    interval_cases k
    · rw [RedditService.retryLoop_throw f 3 0 e hf (fun hc => hne hc.1)]
      simp
    · rw [RedditService.retryLoop_429_step f 3 0 (h429 0 (by omega)) (by omega)]
      rw [RedditService.retryLoop_throw f 3 1 e hf (fun hc => hne hc.1)]
      norm_num [List.range_succ]
    · rw [RedditService.retryLoop_429_step f 3 0 (h429 0 (by omega)) (by omega)]
      rw [RedditService.retryLoop_429_step f 3 1 (h429 1 (by omega)) (by omega)]
      rw [RedditService.retryLoop_throw f 3 2 e hf (fun hc => hne hc.1)]
      norm_num [List.range_succ]
    · rw [RedditService.retryLoop_429_step f 3 0 (h429 0 (by omega)) (by omega)]
      rw [RedditService.retryLoop_429_step f 3 1 (h429 1 (by omega)) (by omega)]
      rw [RedditService.retryLoop_429_step f 3 2 (h429 2 (by omega)) (by omega)]
      rw [RedditService.retryLoop_throw f 3 3 e hf (fun hc => hne hc.1)]
      norm_num [List.range_succ]

/-- C5 witness: an operation that always returns 429 sleeps 5 s, 10 s,
20 s and then raises the throttling error. -/
theorem makeRequestWithRetry_backoff_witness :
    RedditService.makeRequestWithRetry
      (fun _ => (AttemptOutcome.failure (ReqError.httpStatus 429) :
        AttemptOutcome Unit)) 3 =
      (Except.error (ReqError.httpStatus 429), [5000, 10000, 20000]) :=
  (makeRequestWithRetry_backoff
    (fun _ => (AttemptOutcome.failure (ReqError.httpStatus 429) :
      AttemptOutcome Unit))).1 (fun _ _ => rfl)

/-- The counterexample configuration for the throttle ordering claim. -/
def rateCfgCX : RateConfig :=
  { RATE_LIMIT := 30, MIN_REQUEST_INTERVAL := 8000 }

/-- The counterexample state: the last request was issued at the current
instant (so a minimum-interval wait is due immediately) and the remote
quota is exhausted with a reset 5 s in the future. -/
def rateStateCX : RateState :=
  { requestCount := 5, lastResetTime := 100000, lastRequestTime := 100000,
    redditRateLimitRemaining := 0, redditRateLimitReset := 105000 }

/-- C3 counterexample: entered at t = 100000 with a minimum-interval wait
due (0 ms since the last request, minimum 8000 ms) and the remote quota
exhausted, `checkRateLimit` performs the quota wait FIRST and the
minimum-interval wait only afterwards (and only for the 3000 ms still
missing at that later instant), not the claimed interval-wait-first
order, which would have produced an 8000 ms interval wait up front. -/
theorem checkRateLimit_interval_wait_not_first :
    (RedditService.checkRateLimit rateCfgCX rateStateCX 100000).1 =
      [WaitEvent.quotaWait 5000, WaitEvent.intervalWait 3000] := by
  decide

/-- `waitForRequestInterval` never changes the request counter. -/
lemma RedditService.wfri_requestCount (cfg : RateConfig) (s : RateState)
    (t : Int) :
    (RedditService.waitForRequestInterval cfg s t).2.2.requestCount =
      s.requestCount := by
  simp only [RedditService.waitForRequestInterval]
  split_ifs <;> rfl

/-- `waitForRequestInterval` issues the request at least
`MIN_REQUEST_INTERVAL` after the previously recorded request instant. -/
lemma RedditService.wfri_lastRequestTime_ge (cfg : RateConfig)
    (s : RateState) (t : Int) :
    s.lastRequestTime + cfg.MIN_REQUEST_INTERVAL ≤
      (RedditService.waitForRequestInterval cfg s t).2.2.lastRequestTime := by
  simp only [RedditService.waitForRequestInterval]
  split_ifs with h
  · simp
    omega
  · simp
    omega

/-- `quotaStep` changes neither the counter nor the last-request time. -/
lemma RedditService.quotaStep_state (s : RateState) (now : Int) :
    (RedditService.quotaStep s now).2.2.requestCount = s.requestCount ∧
    (RedditService.quotaStep s now).2.2.lastRequestTime =
      s.lastRequestTime := by
  unfold RedditService.quotaStep
  split_ifs <;> exact ⟨rfl, rfl⟩

/-- `localStep` zeroes the counter exactly when it was at the limit, and
never touches the last-request time. -/
lemma RedditService.localStep_state (cfg : RateConfig) (tsr t : Int)
    (s : RateState) :
    (RedditService.localStep cfg tsr t s).2.2.requestCount =
      (if s.requestCount ≥ cfg.RATE_LIMIT then 0 else s.requestCount) ∧
    (RedditService.localStep cfg tsr t s).2.2.lastRequestTime =
      s.lastRequestTime := by
  unfold RedditService.localStep
  split_ifs <;> exact ⟨rfl, rfl⟩

/-- `resetWindow` zeroes the counter exactly when the window elapsed, and
never touches the last-request time. -/
lemma RedditService.resetWindow_state (s : RateState) (now : Int) :
    (RedditService.resetWindow s now).requestCount =
      (if now - s.lastResetTime ≥ 60000 then 0 else s.requestCount) ∧
    (RedditService.resetWindow s now).lastRequestTime =
      s.lastRequestTime := by
  unfold RedditService.resetWindow
  split_ifs <;> exact ⟨rfl, rfl⟩

/-- Each wait site of `quotaStep` emits at most one event, of its kind. -/
lemma RedditService.quotaStep_shape (s : RateState) (now : Int) :
    (RedditService.quotaStep s now).1 = [] ∨
      ∃ w, (RedditService.quotaStep s now).1 = [WaitEvent.quotaWait w] := by
  unfold RedditService.quotaStep
  split_ifs
  · exact Or.inr ⟨_, rfl⟩
  · exact Or.inl rfl

/-- Each wait site of `localStep` emits at most one event, of its kind. -/
lemma RedditService.localStep_shape (cfg : RateConfig) (tsr t : Int)
    (s : RateState) :
    (RedditService.localStep cfg tsr t s).1 = [] ∨
      ∃ w, (RedditService.localStep cfg tsr t s).1 =
        [WaitEvent.localWait w] := by
  unfold RedditService.localStep
  split_ifs
  · exact Or.inr ⟨_, rfl⟩
  · exact Or.inl rfl

/-- The interval wait site emits at most one event, of its kind. -/
lemma RedditService.wfri_shape (cfg : RateConfig) (s : RateState)
    (t : Int) :
    (RedditService.waitForRequestInterval cfg s t).1 = [] ∨
      ∃ w, (RedditService.waitForRequestInterval cfg s t).1 =
        [WaitEvent.intervalWait w] := by
  simp only [RedditService.waitForRequestInterval]
  split_ifs
  · exact Or.inr ⟨_, rfl⟩
  · exact Or.inl rfl

/-- C3 amended: every `checkRateLimit` call performs its waits in the
order remote-quota wait, then local-window wait, then minimum-interval
wait — each site contributing at most one sleep — and increments the
local counter only after all waits (the counter leaving the call is the
post-wait counter plus one). -/
theorem checkRateLimit_wait_order (cfg : RateConfig) (s : RateState)
    (now : Int) :
    ∃ q l i,
      (RedditService.checkRateLimit cfg s now).1 = q ++ l ++ i ∧
      (q = [] ∨ ∃ w, q = [WaitEvent.quotaWait w]) ∧
      (l = [] ∨ ∃ w, l = [WaitEvent.localWait w]) ∧
      (i = [] ∨ ∃ w, i = [WaitEvent.intervalWait w]) ∧
      (RedditService.checkRateLimit cfg s now).2.2.requestCount =
        (if (if now - s.lastResetTime ≥ 60000 then 0 else s.requestCount) ≥
            cfg.RATE_LIMIT
          then 0
          else if now - s.lastResetTime ≥ 60000 then 0
          else s.requestCount) + 1 := by
  refine ⟨_, _, _, rfl,
    RedditService.quotaStep_shape _ now,
    RedditService.localStep_shape cfg _ _ _,
    RedditService.wfri_shape cfg _ _, ?_⟩
  simp only [RedditService.checkRateLimit]
  rw [RedditService.wfri_requestCount]
  rw [(RedditService.localStep_state cfg _ _ _).1]
  rw [(RedditService.quotaStep_state _ now).1]
  rw [(RedditService.resetWindow_state s now).1]

/-- The instant recorded for the request issued by a `checkRateLimit`
call lies at least `MIN_REQUEST_INTERVAL` after the instant recorded for
the previous request. -/
lemma RedditService.checkRateLimit_separation (cfg : RateConfig)
    (s : RateState) (now : Int) :
    s.lastRequestTime + cfg.MIN_REQUEST_INTERVAL ≤
      (RedditService.checkRateLimit cfg s now).2.2.lastRequestTime := by
  show s.lastRequestTime + cfg.MIN_REQUEST_INTERVAL ≤
    (RedditService.waitForRequestInterval cfg _ _).2.2.lastRequestTime
  have h := RedditService.wfri_lastRequestTime_ge cfg
    (RedditService.localStep cfg (now - s.lastResetTime)
      (RedditService.quotaStep (RedditService.resetWindow s now) now).2.1
      (RedditService.quotaStep (RedditService.resetWindow s now) now).2.2).2.2
    (RedditService.localStep cfg (now - s.lastResetTime)
      (RedditService.quotaStep (RedditService.resetWindow s now) now).2.1
      (RedditService.quotaStep (RedditService.resetWindow s now) now).2.2).2.1
  rw [(RedditService.localStep_state cfg _ _ _).2,
    (RedditService.quotaStep_state _ now).2,
    (RedditService.resetWindow_state s now).2] at h
  exact h

/-- C4: along any sequence of `checkRateLimit` calls (each entered at an
arbitrary clock instant), the recorded issue instants of consecutive
requests are separated by at least `MIN_REQUEST_INTERVAL`. -/
theorem issueTimes_min_separated (cfg : RateConfig) (s : RateState)
    (ts : List Int) :
    (RedditService.issueTimes cfg s ts).Chain'
      (fun a b => a + cfg.MIN_REQUEST_INTERVAL ≤ b) := by
  induction ts generalizing s with
  | nil => exact List.chain'_nil
  | cons t ts ih =>
    rw [RedditService.issueTimes]
    rw [List.chain'_cons']
    refine ⟨?_, ih _⟩
    intro y hy
    cases ts with
    | nil => simp [RedditService.issueTimes] at hy
    | cons t2 ts2 =>
      rw [RedditService.issueTimes] at hy
      simp only [List.head?_cons, Option.mem_def, Option.some.injEq] at hy
      subst hy
      exact RedditService.checkRateLimit_separation cfg _ t2

/-- A concrete cache holding one entry under the key `fetchPosts`
derives for subreddit `lean`, sort `hot`, window `week`, limit 100. -/
def cacheCX : String → Option (List RedditPost) := fun k =>
  if k == "reddit:posts:lean:hot:week:100" then some [samplePost] else none

/-- A quiescent rate-limit configuration and state for the witnesses. -/
def rateCfg0 : RateConfig :=
  { RATE_LIMIT := 30, MIN_REQUEST_INTERVAL := 2000 }

/-- See `rateCfg0`. -/
def rateState0 : RateState :=
  { requestCount := 0, lastResetTime := 0, lastRequestTime := 0,
    redditRateLimitRemaining := 60, redditRateLimitReset := 0 }

/-- C6: a `fetchPosts` cache hit returns the cached items with no
throttle, no authentication, no network request, no rate-state change and
no cache write; a miss performs cacheGet, throttle, authenticate, HTTP
request and then stores the fetched result under the key with a 600 s
TTL; `searchPosts` never touches the cache. -/
theorem fetchPosts_cache_frame :
    (∀ (cache : String → Option (List RedditPost)) (cfg : RateConfig)
        (s : RateState) (now : Int) (sub tf so : String) (lim : Nat)
        (resp : List RawChild) (posts : List RedditPost),
      cache (RedditService.fetchPostsCacheKey sub so tf lim) = some posts →
      RedditService.fetchPosts cache cfg s now sub tf so lim resp =
        (posts, s, cache,
          [Effect.cacheGet
            (RedditService.fetchPostsCacheKey sub so tf lim)])) ∧
    (∀ (cache : String → Option (List RedditPost)) (cfg : RateConfig)
        (s : RateState) (now : Int) (sub tf so : String) (lim : Nat)
        (resp : List RawChild),
      cache (RedditService.fetchPostsCacheKey sub so tf lim) = none →
      (RedditService.fetchPosts cache cfg s now sub tf so lim resp).2.2.2 =
        [Effect.cacheGet (RedditService.fetchPostsCacheKey sub so tf lim),
          Effect.throttle, Effect.authenticate, Effect.httpRequest,
          Effect.cacheSet (RedditService.fetchPostsCacheKey sub so tf lim)
            600] ∧
      (RedditService.fetchPosts cache cfg s now sub tf so lim resp).2.2.1
          (RedditService.fetchPostsCacheKey sub so tf lim) =
        some (RedditService.fetchPosts cache cfg s now sub tf so
          lim resp).1) ∧
    (∀ (cfg : RateConfig) (s : RateState) (now : Int) (q : String)
        (sub : Option String) (lim : Nat) (resp : List RawChild),
      ∀ e ∈ (RedditService.searchPosts cfg s now q sub lim resp).2.2,
        e = Effect.throttle ∨ e = Effect.authenticate ∨
          e = Effect.httpRequest) := by
  refine ⟨?_, ?_, ?_⟩
  · intro cache cfg s now sub tf so lim resp posts hhit
    simp [RedditService.fetchPosts, hhit]
  · intro cache cfg s now sub tf so lim resp hmiss
    simp [RedditService.fetchPosts, hmiss]
  · intro cfg s now q sub lim resp e he
    simp only [RedditService.searchPosts] at he
    simpa using he

/-- C6 witness: the hit clause applied to `cacheCX` — the cached post
list comes back, the rate state and the cache are unchanged, and the only
effect is the cache read. -/
theorem fetchPosts_cache_frame_witness :
    RedditService.fetchPosts cacheCX rateCfg0 rateState0 0 "lean" "week"
        "hot" 100 [] =
      ([samplePost], rateState0, cacheCX,
        [Effect.cacheGet
          (RedditService.fetchPostsCacheKey "lean" "hot" "week" 100)]) :=
  fetchPosts_cache_frame.1 cacheCX rateCfg0 rateState0 0 "lean" "week"
    "hot" 100 [] [samplePost] (by decide)

/-- The criteria mapping with every optional filter absent. -/
def emptyCriteria : SearchCriteria :=
  { keywords := [], requiredKeywords := none, subreddits := none,
    minUpvotes := none, minKarma := none, dateRangeStart := none,
    dateRangeEnd := none, limit := none, offset := none }

/-- A joined row with the given id, relevance score and raw score. -/
def mkSearchRow (i : Nat) (rel sc : Int) : SearchRow :=
  { post :=
      { id := i, reddit_id := "", title := "", content := none,
        subreddit_id := 0, author_id := none, score := sc, upvotes := 0,
        downvotes := 0, comment_count := 0, created_utc := 0, url := "",
        processed := false, relevance_score := rel },
    author := none, subreddit_name := none }

/-- C8: `PostModel.search` returns, for every criteria mapping, a
permutation of the filtered rows sorted by the two-key order (relevance
score descending, then raw score descending), with `OFFSET` (default 0)
and `LIMIT` (default 50) applied after that ordering; concretely, rows
with relevance scores [5, 5, 2] and raw scores [10, 20, 100] come back
with the tied pair ordered by raw score and the relevance-2 row last. -/
theorem search_order_pagination :
    (∀ (fts : List String → String → Option String → Bool)
        (q : SearchCriteria) (db : List SearchRow),
      ∃ full : List SearchRow,
        full.Perm (db.filter (matchesCriteria fts q)) ∧
        full.Pairwise searchRel ∧
        PostModel.search fts q db =
          (full.drop (q.offset.getD 0)).take (q.limit.getD 50)) ∧
    PostModel.search (fun _ _ _ => false) emptyCriteria
        [mkSearchRow 1 5 10, mkSearchRow 2 5 20, mkSearchRow 3 2 100] =
      [mkSearchRow 2 5 20, mkSearchRow 1 5 10, mkSearchRow 3 2 100] := by
  constructor
  · intro fts q db
    exact ⟨(db.filter (matchesCriteria fts q)).insertionSort searchRel,
      List.perm_insertionSort _ _, List.sorted_insertionSort _ _, rfl⟩
  · decide

end RedditFilter
